import Mathlib

/-!
ADS1115 character-device driver (`ads1115_ioctl.c`).

A shallow embedding of the driver: the register access functions `ads_read`
and `ads_write`, the request dispatcher `ads1115_ioctl`, and the lifecycle
callbacks `ads1115_probe` and `ads1115_remove`.

The kernel services the driver calls (SMBus transfers, user-memory copies,
character-device / class / device registration) are modelled by their
documented contracts; every outcome the kernel may report is an input of the
model (`IoEnv`, `ProbeEnv`), and every call the driver makes is appended to
`State.log`. Diagnostic `printk` output is not modelled.
-/

namespace ADS1115

/-! ## Constants -/

def ADS1115_REG_CONVERSION : Nat := 0x00
def ADS1115_REG_CONFIG : Nat := 0x01
def ADS1115_REG_LO_THRESH : Nat := 0x02
def ADS1115_REG_HI_THRESH : Nat := 0x03

/-- Kernel errno values (`errno-base.h`). -/
def EIO_errno : Int := 5
def EFAULT_errno : Int := 14
def EINVAL_errno : Int := 22

/-- The request-number encoding of `asm-generic/ioctl.h`:
`(dir << 30) | (type << 8) | (nr << 0) | (size << 16)`. -/
def _IOC (dir type nr size : Nat) : Nat :=
  (dir <<< 30) ||| (type <<< 8) ||| (nr <<< 0) ||| (size <<< 16)

/-- Direction bit `_IOC_READ` is 2. -/
def _IOR (type nr size : Nat) : Nat := _IOC 2 type nr size

/-- Direction bit `_IOC_WRITE` is 1. -/
def _IOW (type nr size : Nat) : Nat := _IOC 1 type nr size

/-- The character `'a'`. -/
def ADS1115_IOCTL_MAGIC : Nat := 97

/-- The payload type of every request is `int16_t`, two bytes. -/
def sizeof_int16_t : Nat := 2

def ADS1115_IOCTL_READ_CONVERSION : Nat := _IOR ADS1115_IOCTL_MAGIC 1 sizeof_int16_t
def ADS1115_IOCTL_CONFIG : Nat := _IOW ADS1115_IOCTL_MAGIC 2 sizeof_int16_t
def ADS1115_IOCTL_LO_THRESH : Nat := _IOW ADS1115_IOCTL_MAGIC 3 sizeof_int16_t
def ADS1115_IOCTL_HI_THRESH : Nat := _IOW ADS1115_IOCTL_MAGIC 4 sizeof_int16_t

/-! ## Machine integers -/

/-- Conversion of an `int` to `int16_t` (wraps modulo 2^16). -/
def int16_of_int (x : Int) : Int := (x + 32768) % 65536 - 32768

/-- Conversion of an `int16_t` to the `u16` parameter of the SMBus word write. -/
def u16_of_int (x : Int) : Nat := (x % 65536).toNat

/-! ## Kernel objects and the driver state -/

/-- A kernel pointer as the driver sees it: `NULL`, an `ERR_PTR(-errno)`,
or a live object. -/
inductive KPtr where
  | null : KPtr
  | err (errno : Nat) : KPtr
  | ok (id : Nat) : KPtr
deriving DecidableEq, Repr

def IS_ERR : KPtr → Bool
  | KPtr.err _ => true
  | _ => false

def PTR_ERR : KPtr → Int
  | KPtr.err e => -(e : Int)
  | KPtr.null => 0
  | KPtr.ok id => (id : Int)

/-- Device number: `(ma << MINORBITS) | mi` with `MINORBITS = 20`, as a 32-bit
`dev_t`. -/
def MKDEV (ma : Int) (mi : Nat) : Nat := ((ma * 1048576) % 4294967296).toNat ||| mi

/-- Every call the driver makes into the kernel, with its arguments. -/
inductive Event where
  | i2c_read_block (client : Option Nat) (command length : Nat) : Event
  | i2c_write_word (client : Option Nat) (command value : Nat) : Event
  | copy_to_user (dst : Nat) (data : Int) (done : Bool) : Event
  | copy_from_user (src : Nat) (done : Bool) : Event
  | register_chrdev (major : Nat) : Event
  | class_create : Event
  | device_create (cls : KPtr) (devt : Nat) : Event
  | device_destroy (cls : KPtr) (devt : Nat) : Event
  | class_unregister (cls : KPtr) : Event
  | class_destroy (cls : KPtr) : Event
  | unregister_chrdev (major : Int) : Event
deriving DecidableEq, Repr

/-- The driver's file-scope variables, the kernel registrations that exist,
and the log of kernel calls made so far. -/
structure State where
  ads1115_client : Option Nat
  ads1115_class : KPtr
  ads1115_device : KPtr
  major_number : Int
  chrdevs : List Int
  classes : List Nat
  nodes : List (Nat × Nat)
  log : List Event
deriving DecidableEq, Repr

/-- Module load: zero-initialised statics, nothing registered. -/
def State.init : State :=
  { ads1115_client := none, ads1115_class := KPtr.null, ads1115_device := KPtr.null,
    major_number := 0, chrdevs := [], classes := [], nodes := [], log := [] }

/-! ## Bus transport and user memory -/

/-- What the adapter reports for a block read: a negative errno, or the bytes
it transferred. -/
inductive BusRead where
  | error (errno : Nat) : BusRead
  | data (bytes : List Nat) : BusRead
deriving DecidableEq, Repr

/-- Everything outside the driver that one request depends on. -/
structure IoEnv where
  i2c_read : BusRead
  stack_buf : Nat × Nat
  i2c_write : Int
  user_read : Nat → Option Int
  user_write_ok : Nat → Bool

/-- `i2c_smbus_read_i2c_block_data`: on error returns the negative status and
leaves `values` alone; otherwise copies the bytes received (at most `length`)
to the front of `values` and returns their count. -/
def i2c_smbus_read_i2c_block_data (r : BusRead) (client : Option Nat)
    (command length : Nat) (values : List Nat) (s : State) : Int × List Nat × State :=
  let s1 := { s with log := s.log ++ [Event.i2c_read_block client command length] }
  match r with
  | BusRead.error e => (-(e : Int), values, s1)
  | BusRead.data bytes =>
    let got := (bytes.take length).map (fun b => b % 256)
    ((got.length : Int), got ++ values.drop got.length, s1)

/-- `i2c_smbus_write_word_data`: hands `value` to the adapter and returns its
status (0 or a negative errno). -/
def i2c_smbus_write_word_data (status : Int) (client : Option Nat)
    (command value : Nat) (s : State) : Int × State :=
  (status, { s with log := s.log ++ [Event.i2c_write_word client command value] })

/-- The bytes a kernel call puts on the two-wire bus after the device address.
The SMBus "write word" transaction is: command code, data low byte, data high
byte. -/
def Event.wire : Event → List Nat
  | Event.i2c_write_word _ command value => [command % 256, value % 256, value / 256 % 256]
  | Event.i2c_read_block _ command _ => [command % 256]
  | _ => []

/-- The 16-bit big-endian encoding of a value: most significant byte first. -/
def big_endian16 (x : Int) : List Nat := [u16_of_int x / 256, u16_of_int x % 256]

/-- `copy_to_user` of one `int16_t`: returns the number of bytes left
uncopied. -/
def copy_to_user (env : IoEnv) (dst : Nat) (data : Int) (s : State) : Nat × State :=
  if env.user_write_ok dst then
    (0, { s with log := s.log ++ [Event.copy_to_user dst data true] })
  else
    (sizeof_int16_t, { s with log := s.log ++ [Event.copy_to_user dst data false] })

/-- `copy_from_user` of one `int16_t`: returns the number of bytes left
uncopied and the destination's contents (`dflt` when nothing was copied). -/
def copy_from_user (env : IoEnv) (src : Nat) (dflt : Int) (s : State) : Nat × Int × State :=
  match env.user_read src with
  | some v => (0, int16_of_int v, { s with log := s.log ++ [Event.copy_from_user src true] })
  | none => (sizeof_int16_t, dflt, { s with log := s.log ++ [Event.copy_from_user src false] })

/-! ## Register access layer -/

/-- `ads_read`: block-read two bytes at the Conversion register and combine
them as `(buf[0] << 8) | buf[1]`, stored in an `int16_t`. `buf` starts with
whatever the stack holds. -/
def ads_read (env : IoEnv) (client : Option Nat) (s : State) : Int × State :=
  let buf := [env.stack_buf.1 % 256, env.stack_buf.2 % 256]
  let (status, buf, s) :=
    i2c_smbus_read_i2c_block_data env.i2c_read client ADS1115_REG_CONVERSION 2 buf s
  if status < 0 then
    (-EIO_errno, s)
  else
    let conversion_data := int16_of_int (((buf.getD 0 0 <<< 8) ||| buf.getD 1 0 : Nat) : Int)
    (conversion_data, s)

/-- `ads_write`: one SMBus word write. Returns `-EIO` on failure; on success
control reaches the end of the function without a `return`, so the value is
indeterminate (`none`). -/
def ads_write (env : IoEnv) (client : Option Nat) (reg_address : Nat) (data : Int)
    (s : State) : Option Int × State :=
  let (status, s) :=
    i2c_smbus_write_word_data env.i2c_write client (reg_address % 256) (u16_of_int data) s
  if status < 0 then (some (-EIO_errno), s) else (none, s)

/-! ## Request dispatcher -/

/-- `ads1115_ioctl`: the `switch (cmd)` of the source, one branch per case
label, `default` last. The read branch calls `ads_read(ads1115_client, 0)`;
`ads_read` has the single parameter `client`, so the `0` plays no part. The
branch converts the `int` that `ads_read`
returns to the `int16_t` variable `data` before copying it out; the value
`ads_write` returns is discarded. -/
def ads1115_ioctl (env : IoEnv) (s : State) (cmd arg : Nat) : Int × State :=
  if cmd = ADS1115_IOCTL_READ_CONVERSION then
    let (r, s) := ads_read env s.ads1115_client s
    let data := int16_of_int r
    let (left, s) := copy_to_user env arg data s
    if left ≠ 0 then (-EFAULT_errno, s) else (0, s)
  else if cmd = ADS1115_IOCTL_CONFIG then
    let (left, config_data, s) := copy_from_user env arg 0 s
    if left ≠ 0 then (-EFAULT_errno, s)
    else
      let (_, s) := ads_write env s.ads1115_client ADS1115_REG_CONFIG config_data s
      (0, s)
  else if cmd = ADS1115_IOCTL_LO_THRESH then
    let (left, config_data, s) := copy_from_user env arg 0 s
    if left ≠ 0 then (-EFAULT_errno, s)
    else
      let (_, s) := ads_write env s.ads1115_client ADS1115_REG_LO_THRESH config_data s
      (0, s)
  else if cmd = ADS1115_IOCTL_HI_THRESH then
    let (left, config_data, s) := copy_from_user env arg 0 s
    if left ≠ 0 then (-EFAULT_errno, s)
    else
      let (_, s) := ads_write env s.ads1115_client ADS1115_REG_HI_THRESH config_data s
      (0, s)
  else
    (-EINVAL_errno, s)

/-- The register a write request addresses. -/
def write_register (cmd : Nat) : Nat :=
  if cmd = ADS1115_IOCTL_CONFIG then ADS1115_REG_CONFIG
  else if cmd = ADS1115_IOCTL_LO_THRESH then ADS1115_REG_LO_THRESH
  else ADS1115_REG_HI_THRESH

/-- A request environment in which the bus read delivers `bytes`. -/
def IoEnv.reading (bytes : List Nat) (stack : Nat × Nat) : IoEnv :=
  { i2c_read := BusRead.data bytes, stack_buf := stack, i2c_write := 0,
    user_read := fun _ => none, user_write_ok := fun _ => true }

/-- A request environment in which the bus read fails with `errno`. -/
def IoEnv.readError (errno : Nat) : IoEnv :=
  { i2c_read := BusRead.error errno, stack_buf := (0, 0), i2c_write := 0,
    user_read := fun _ => none, user_write_ok := fun _ => true }

/-- A request environment in which every user address holds `v` and the bus
write returns `status`. -/
def IoEnv.writing (v : Int) (status : Int) : IoEnv :=
  { i2c_read := BusRead.error 5, stack_buf := (0, 0), i2c_write := status,
    user_read := fun _ => some v, user_write_ok := fun _ => true }

/-- A request environment in which no user address is readable. -/
def IoEnv.faulting (status : Int) : IoEnv :=
  { i2c_read := BusRead.error 5, stack_buf := (0, 0), i2c_write := status,
    user_read := fun _ => none, user_write_ok := fun _ => false }

/-! ## Lifecycle: attach and detach -/

/-- What the kernel answers to a request for a new object. -/
inductive Alloc where
  | fail (errno : Nat) : Alloc
  | ok (id : Nat) : Alloc
deriving DecidableEq, Repr

/-- Everything outside the driver that one attach depends on: the client the
bus core hands over and the outcome of each provisioning call. -/
structure ProbeEnv where
  client : Nat
  chrdev_result : Int
  class_result : Alloc
  device_result : Alloc
deriving DecidableEq, Repr

/-- `register_chrdev(0, name, fops)`: returns a negative errno, or the major
number it allocated and registered. -/
def register_chrdev (result : Int) (major : Nat) (s : State) : Int × State :=
  let s1 := { s with log := s.log ++ [Event.register_chrdev major] }
  if result < 0 then (result, s1)
  else (result, { s1 with chrdevs := s1.chrdevs ++ [result] })

/-- `class_create`: returns `ERR_PTR(-errno)`, or the class it registered. -/
def class_create (result : Alloc) (s : State) : KPtr × State :=
  let s1 := { s with log := s.log ++ [Event.class_create] }
  match result with
  | Alloc.fail e => (KPtr.err e, s1)
  | Alloc.ok id => (KPtr.ok id, { s1 with classes := s1.classes ++ [id] })

/-- `device_create`: refuses a class that is `NULL` or an error pointer with
`-ENODEV`; otherwise returns `ERR_PTR(-errno)`, or the device whose node it
registered under `(class, devt)`. -/
def device_create (result : Alloc) (cls : KPtr) (devt : Nat) (s : State) : KPtr × State :=
  let s1 := { s with log := s.log ++ [Event.device_create cls devt] }
  match cls with
  | KPtr.ok c =>
    match result with
    | Alloc.fail e => (KPtr.err e, s1)
    | Alloc.ok id => (KPtr.ok id, { s1 with nodes := s1.nodes ++ [(c, devt)] })
  | _ => (KPtr.err 19, s1)

/-- `device_destroy`: removes the node registered under `(class, devt)`. -/
def device_destroy (cls : KPtr) (devt : Nat) (s : State) : State :=
  let s1 := { s with log := s.log ++ [Event.device_destroy cls devt] }
  match cls with
  | KPtr.ok c => { s1 with nodes := s1.nodes.filter (fun n => n ≠ (c, devt)) }
  | _ => s1

/-- Removal of a class from the set of registered classes. -/
def drop_class (cls : KPtr) (s : State) : State :=
  match cls with
  | KPtr.ok c => { s with classes := s.classes.filter (fun k => k ≠ c) }
  | _ => s

/-- `class_unregister`. -/
def class_unregister (cls : KPtr) (s : State) : State :=
  drop_class cls { s with log := s.log ++ [Event.class_unregister cls] }

/-- `class_destroy`: returns at once on `NULL` or an error pointer, otherwise
unregisters the class. -/
def class_destroy (cls : KPtr) (s : State) : State :=
  let s1 := { s with log := s.log ++ [Event.class_destroy cls] }
  match cls with
  | KPtr.ok _ => drop_class cls s1
  | _ => s1

/-- `unregister_chrdev`: releases the major number. -/
def unregister_chrdev (major : Int) (s : State) : State :=
  { s with log := s.log ++ [Event.unregister_chrdev major],
           chrdevs := s.chrdevs.filter (fun m => m ≠ major) }

/-- An execution: the state reached and, oldest first, every state passed
through on the way. -/
structure Run where
  past : List State
  cur : State
deriving DecidableEq, Repr

def Run.start (s : State) : Run := { past := [], cur := s }

/-- Execute one statement. -/
def Run.step (r : Run) (f : State → State) : Run :=
  { past := r.past ++ [r.cur], cur := f r.cur }

/-- Every state of an execution, the current one last. -/
def Run.states (r : Run) : List State := r.past ++ [r.cur]

/-- `ads1115_probe`, one `step` per statement that changes the state. -/
def ads1115_probe (env : ProbeEnv) (r0 : Run) : Int × Run :=
  let r1 := r0.step (fun s => { s with ads1115_client := some env.client })
  let r2 := r1.step (fun s =>
    let (m, k) := register_chrdev env.chrdev_result 0 s
    { k with major_number := m })
  if r2.cur.major_number < 0 then
    (r2.cur.major_number, r2)
  else
    let r3 := r2.step (fun s =>
      let (c, k) := class_create env.class_result s
      { k with ads1115_class := c })
    if IS_ERR r3.cur.ads1115_class then
      let r4 := r3.step (fun s => unregister_chrdev s.major_number s)
      (PTR_ERR r4.cur.ads1115_class, r4)
    else
      let r5 := r3.step (fun s =>
        let (d, k) := device_create env.device_result s.ads1115_class (MKDEV s.major_number 0) s
        { k with ads1115_device := d })
      if IS_ERR r5.cur.ads1115_device then
        let r6 := r5.step (fun s => class_destroy s.ads1115_class s)
        let r7 := r6.step (fun s => unregister_chrdev s.major_number s)
        (PTR_ERR r7.cur.ads1115_device, r7)
      else
        (0, r5)

/-- `ads1115_remove`, one `step` per statement. -/
def ads1115_remove (r0 : Run) : Run :=
  let r1 := r0.step (fun s => device_destroy s.ads1115_class (MKDEV s.major_number 0) s)
  let r2 := r1.step (fun s => class_unregister s.ads1115_class s)
  let r3 := r2.step (fun s => class_destroy s.ads1115_class s)
  let r4 := r3.step (fun s => unregister_chrdev s.major_number s)
  r4

/-! ## Lifecycle predicates -/

/-- No channel identity, no device class and no device node is registered. -/
def Unbound (s : State) : Prop := s.chrdevs = [] ∧ s.classes = [] ∧ s.nodes = []

instance (s : State) : Decidable (Unbound s) := by unfold Unbound; infer_instance

/-- Resource nesting: a node needs a class, a class needs a channel identity,
a channel identity needs a stored handle. -/
def Nested (s : State) : Prop :=
  (s.nodes ≠ [] → s.classes ≠ []) ∧ (s.classes ≠ [] → s.chrdevs ≠ []) ∧
    (s.chrdevs ≠ [] → s.ads1115_client ≠ none)

instance (s : State) : Decidable (Nested s) := by unfold Nested; infer_instance

/-- Well-formed kernel answers: an error pointer carries an errno in
`1 .. MAX_ERRNO`. -/
def Alloc.WF : Alloc → Prop
  | Alloc.fail e => 1 ≤ e ∧ e ≤ 4095
  | Alloc.ok _ => True

instance (a : Alloc) : Decidable a.WF := by
  cases a <;> unfold Alloc.WF <;> infer_instance

/-- The provisioning step that fails first, if any, with the error it
reports. -/
def ProbeEnv.failure (env : ProbeEnv) : Option Int :=
  if env.chrdev_result < 0 then some env.chrdev_result
  else match env.class_result with
    | Alloc.fail e => some (-(e : Int))
    | Alloc.ok _ =>
      match env.device_result with
      | Alloc.fail e => some (-(e : Int))
      | Alloc.ok _ => none

/-! ## Sample environments and states -/

/-- Every provisioning call succeeds: major 240, class 1, device 2. -/
def ProbeEnv.allOk : ProbeEnv :=
  { client := 7, chrdev_result := 240, class_result := Alloc.ok 1, device_result := Alloc.ok 2 }

/-- Node creation fails with `-ENOMEM`. -/
def ProbeEnv.nodeFails : ProbeEnv :=
  { client := 7, chrdev_result := 240, class_result := Alloc.ok 1, device_result := Alloc.fail 12 }

/-- The state in which an attach from `s` ends. -/
def attached (env : ProbeEnv) (s : State) : State := (ads1115_probe env (Run.start s)).2.cur

/-- The state after a successful attach at module load. -/
def State.bound : State := (ads1115_probe ProbeEnv.allOk (Run.start State.init)).2.cur

/-- The state after that attach has been detached again. -/
def State.detached : State := (ads1115_remove (Run.start State.bound)).cur

/-! ## Register access and dispatch: theorems -/

theorem shift_or_bytes (b0 b1 : Nat) (h1 : b1 < 256) : (b0 <<< 8) ||| b1 = b0 * 256 + b1 := by
  have h := Nat.mul_add_lt_is_or (i := 8) (b := b1) (by simpa using h1) b0
  rw [Nat.shiftLeft_eq, Nat.mul_comm b0 (2 ^ 8), ← h]

theorem tags_distinct :
    ADS1115_IOCTL_CONFIG ≠ ADS1115_IOCTL_READ_CONVERSION ∧
    ADS1115_IOCTL_LO_THRESH ≠ ADS1115_IOCTL_READ_CONVERSION ∧
    ADS1115_IOCTL_LO_THRESH ≠ ADS1115_IOCTL_CONFIG ∧
    ADS1115_IOCTL_HI_THRESH ≠ ADS1115_IOCTL_READ_CONVERSION ∧
    ADS1115_IOCTL_HI_THRESH ≠ ADS1115_IOCTL_CONFIG ∧
    ADS1115_IOCTL_HI_THRESH ≠ ADS1115_IOCTL_LO_THRESH := by decide

/-- C1: when the block read of the Conversion register delivers the two bytes
`b0, b1`, `ads_read` returns the two's-complement 16-bit value of
`(b0 << 8) | b1`: `b0*256 + b1` when `b0 < 0x80`, `b0*256 + b1 - 65536`
otherwise, always within `[-32768, 32767]`. -/
theorem ads_read_signed16 (env : IoEnv) (client : Option Nat) (s : State) (b0 b1 : Nat)
    (h0 : b0 < 256) (h1 : b1 < 256) (hrd : env.i2c_read = BusRead.data [b0, b1]) :
    (ads_read env client s).1 = int16_of_int (((b0 <<< 8) ||| b1 : Nat) : Int) ∧
    (ads_read env client s).1
      = (if b0 < 128 then (b0 : Int) * 256 + b1 else (b0 : Int) * 256 + b1 - 65536) ∧
    -32768 ≤ (ads_read env client s).1 ∧ (ads_read env client s).1 ≤ 32767 := by
  have hval : (ads_read env client s).1 = int16_of_int (((b0 <<< 8) ||| b1 : Nat) : Int) := by
    simp [ads_read, i2c_smbus_read_i2c_block_data, hrd, Nat.mod_eq_of_lt h0, Nat.mod_eq_of_lt h1]
  refine ⟨hval, ?_, ?_, ?_⟩
  · rw [hval, shift_or_bytes b0 b1 h1]
    unfold int16_of_int
    split_ifs with hlt <;> push_cast <;> omega
  · rw [hval]; unfold int16_of_int; omega
  · rw [hval]; unfold int16_of_int; omega

/-- Witness for C1: bytes `[0x12, 0x34]` give 4660 and bytes `[0xFF, 0xFF]`
give -1. -/
theorem ads_read_signed16_witness :
    (0x12 < 256 ∧ 0x34 < 256 ∧ 0xFF < 256) ∧
    (ads_read (IoEnv.reading [0x12, 0x34] (0, 0)) (some 7) State.bound).1 = 4660 ∧
    (ads_read (IoEnv.reading [0xFF, 0xFF] (0, 0)) (some 7) State.bound).1 = -1 := by
  refine ⟨by decide, ?_, ?_⟩
  · have h := (ads_read_signed16 (IoEnv.reading [0x12, 0x34] (0, 0)) (some 7) State.bound
      0x12 0x34 (by decide) (by decide) rfl).2.1
    simpa using h
  · have h := (ads_read_signed16 (IoEnv.reading [0xFF, 0xFF] (0, 0)) (some 7) State.bound
      0xFF 0xFF (by decide) (by decide) rfl).2.1
    simpa using h

/-- Every write request whose copy from the requester succeeds makes exactly
one SMBus word write, at the register of its tag, of the 16-bit word of the
value, and returns 0 whatever the bus reports. -/
theorem ioctl_write_forwards_word (env : IoEnv) (s : State) (cmd arg : Nat) (v : Int)
    (hcmd : cmd = ADS1115_IOCTL_CONFIG ∨ cmd = ADS1115_IOCTL_LO_THRESH ∨
      cmd = ADS1115_IOCTL_HI_THRESH)
    (hin : env.user_read arg = some v) :
    ads1115_ioctl env s cmd arg
      = (0, { s with log := s.log ++ [Event.copy_from_user arg true,
              Event.i2c_write_word s.ads1115_client (write_register cmd)
                (u16_of_int (int16_of_int v))] }) := by
  obtain ⟨h1, h2, h3, h4, h5, h6⟩ := tags_distinct
  rcases hcmd with h | h | h <;> subst h <;>
    simp [ads1115_ioctl, copy_from_user, ads_write, i2c_smbus_write_word_data, hin,
      write_register, h1, h2, h3, h4, h5, h6, sizeof_int16_t, ADS1115_REG_CONFIG,
      ADS1115_REG_LO_THRESH, ADS1115_REG_HI_THRESH] <;>
    split_ifs <;> simp

/-- C2 (what the code does): `WriteConfig(0x4583)` makes one SMBus word write
of the word `0x4583` at register `0x01`; the SMBus word write sends the low
byte first, so the data bytes on the bus are `0x83, 0x45`, not the big-endian
`0x45, 0x83`. -/
theorem ioctl_write_config_wire_order :
    ads1115_ioctl (IoEnv.writing 0x4583 0) State.bound ADS1115_IOCTL_CONFIG 100
      = (0, { State.bound with log := State.bound.log ++
          [Event.copy_from_user 100 true, Event.i2c_write_word (some 7) 0x01 0x4583] }) ∧
    (Event.i2c_write_word (some 7) 0x01 0x4583).wire = [0x01, 0x83, 0x45] ∧
    big_endian16 0x4583 = [0x45, 0x83] ∧
    (Event.i2c_write_word (some 7) 0x01 0x4583).wire.tail ≠ big_endian16 0x4583 := by
  decide

/-- C3 (what the code does): when the bus read of a ReadConversion request
fails, `ads1115_ioctl` stores `-EIO` in the sample, copies that `-5` to the
requester and returns 0. -/
theorem ioctl_read_bus_error_returns_zero :
    ads1115_ioctl (IoEnv.readError 5) State.bound ADS1115_IOCTL_READ_CONVERSION 100
      = (0, { State.bound with log := State.bound.log ++
          [Event.i2c_read_block (some 7) 0x00 2, Event.copy_to_user 100 (-5) true] }) := by
  decide

/-- C4: a request tag that is none of the four defined tags returns `-EINVAL`
and leaves the state, the log of kernel calls included, untouched: no bus
transaction and no copy to or from the requester. -/
theorem ioctl_invalid_tag (env : IoEnv) (s : State) (cmd arg : Nat)
    (h1 : cmd ≠ ADS1115_IOCTL_READ_CONVERSION) (h2 : cmd ≠ ADS1115_IOCTL_CONFIG)
    (h3 : cmd ≠ ADS1115_IOCTL_LO_THRESH) (h4 : cmd ≠ ADS1115_IOCTL_HI_THRESH) :
    ads1115_ioctl env s cmd arg = (-EINVAL_errno, s) ∧ -EINVAL_errno = -22 := by
  simp [ads1115_ioctl, h1, h2, h3, h4, EINVAL_errno]

/-- Witness for C4: tag 0. -/
theorem ioctl_invalid_tag_witness :
    (0 ≠ ADS1115_IOCTL_READ_CONVERSION ∧ 0 ≠ ADS1115_IOCTL_CONFIG ∧
      0 ≠ ADS1115_IOCTL_LO_THRESH ∧ 0 ≠ ADS1115_IOCTL_HI_THRESH) ∧
    ads1115_ioctl (IoEnv.writing 0x4583 0) State.bound 0 100 = (-EINVAL_errno, State.bound) ∧
    -EINVAL_errno = -22 :=
  ⟨by decide, ioctl_invalid_tag (IoEnv.writing 0x4583 0) State.bound 0 100
    (by decide) (by decide) (by decide) (by decide)⟩

/-- C5: for each write request, when the copy of the value from the requester
fails, `ads1115_ioctl` returns `-EFAULT`, the only kernel call made is the
failed copy, and no bus write is added to the log. -/
theorem ioctl_write_fault (env : IoEnv) (s : State) (cmd arg : Nat)
    (hcmd : cmd = ADS1115_IOCTL_CONFIG ∨ cmd = ADS1115_IOCTL_LO_THRESH ∨
      cmd = ADS1115_IOCTL_HI_THRESH)
    (hfault : env.user_read arg = none) :
    (ads1115_ioctl env s cmd arg).1 = -EFAULT_errno ∧ -EFAULT_errno = -14 ∧
    (ads1115_ioctl env s cmd arg).2
      = { s with log := s.log ++ [Event.copy_from_user arg false] } ∧
    ∀ c r v, Event.i2c_write_word c r v ∈ (ads1115_ioctl env s cmd arg).2.log →
      Event.i2c_write_word c r v ∈ s.log := by
  obtain ⟨h1, h2, h3, h4, h5, h6⟩ := tags_distinct
  rcases hcmd with h | h | h <;> subst h <;>
    simp [ads1115_ioctl, copy_from_user, hfault, h1, h2, h3, h4, h5, h6, sizeof_int16_t,
      EFAULT_errno]

/-- Witness for C5: WriteConfig with an unreadable source. -/
theorem ioctl_write_fault_witness :
    (IoEnv.faulting 0).user_read 100 = none ∧
    (ads1115_ioctl (IoEnv.faulting 0) State.bound ADS1115_IOCTL_CONFIG 100).1 = -EFAULT_errno :=
  ⟨rfl, (ioctl_write_fault (IoEnv.faulting 0) State.bound ADS1115_IOCTL_CONFIG 100
    (Or.inl rfl) rfl).1⟩

/-- C8 (what the code does): a block read that reports one byte, or none,
is not an error for `ads_read`: it returns a sample built from the byte
received and the stale contents of `buf`. -/
theorem ads_read_short_read_returns_sample :
    (ads_read (IoEnv.reading [0x12] (0xAB, 0x34)) (some 7) State.bound).1 = 4660 ∧
    (ads_read (IoEnv.reading [] (0x01, 0x02)) (some 7) State.bound).1 = 258 ∧
    (i2c_smbus_read_i2c_block_data (BusRead.data [0x12]) (some 7) 0x00 2 [0xAB, 0x34]
      State.bound).1 = 1 ∧
    (i2c_smbus_read_i2c_block_data (BusRead.data []) (some 7) 0x00 2 [0x01, 0x02]
      State.bound).1 = 0 ∧
    -EIO_errno = -5 := by
  decide

/-! ## Lifecycle: theorems -/

/-- C6: an attach from Unbound in which a provisioning step fails (channel
identity, device class or device node) returns the error of the first failing
step, a negative errno, and ends with no channel identity, no device class and
no device node registered. -/
theorem probe_failure_rolls_back (env : ProbeEnv) (s : State) (e : Int)
    (hU : Unbound s) (hc : env.class_result.WF) (hd : env.device_result.WF)
    (hfail : env.failure = some e) :
    (ads1115_probe env (Run.start s)).1 = e ∧ e < 0 ∧
    Unbound (ads1115_probe env (Run.start s)).2.cur := by
  obtain ⟨h1, h2, h3⟩ := hU
  obtain ⟨client, cr, klass, dev⟩ := env
  by_cases hneg : cr < 0
  · simp [ProbeEnv.failure, hneg] at hfail
    subst hfail
    simp [ads1115_probe, Run.step, Run.start, register_chrdev, hneg, Unbound, h1, h2, h3]
  · cases klass with
    | fail ec =>
      simp [ProbeEnv.failure, hneg] at hfail
      simp [Alloc.WF] at hc
      subst hfail
      simp [ads1115_probe, Run.step, Run.start, register_chrdev, class_create,
        unregister_chrdev, IS_ERR, PTR_ERR, hneg, Unbound, h1, h2, h3]
      omega
    | ok c =>
      cases dev with
      | fail ed =>
        simp [ProbeEnv.failure, hneg] at hfail
        simp [Alloc.WF] at hd
        subst hfail
        simp [ads1115_probe, Run.step, Run.start, register_chrdev, class_create,
          device_create, class_destroy, drop_class, unregister_chrdev, IS_ERR, PTR_ERR,
          hneg, Unbound, h1, h2, h3]
        omega
      | ok d => simp [ProbeEnv.failure, hneg] at hfail

/-- Witness for C6: node creation fails with `-ENOMEM` at module load. -/
theorem probe_failure_rolls_back_witness :
    (Unbound State.init ∧ ProbeEnv.nodeFails.class_result.WF ∧
      ProbeEnv.nodeFails.device_result.WF ∧ ProbeEnv.nodeFails.failure = some (-12)) ∧
    (ads1115_probe ProbeEnv.nodeFails (Run.start State.init)).1 = -12 ∧ (-12 : Int) < 0 ∧
    Unbound (ads1115_probe ProbeEnv.nodeFails (Run.start State.init)).2.cur :=
  ⟨by decide, probe_failure_rolls_back ProbeEnv.nodeFails State.init (-12) (by decide)
    (by decide) (by decide) (by decide)⟩

/-- An attach from Unbound in which every step succeeds returns 0 and ends
with the handle stored and exactly one channel identity, one class and one
node registered. -/
theorem probe_success_bound (env : ProbeEnv) (s : State) (c d : Nat)
    (hU : Unbound s) (hm : 0 ≤ env.chrdev_result) (hc : env.class_result = Alloc.ok c)
    (hd : env.device_result = Alloc.ok d) :
    ads1115_probe env (Run.start s) = (0,
      { past := [s, { s with ads1115_client := some env.client },
          { s with ads1115_client := some env.client, major_number := env.chrdev_result,
                   chrdevs := [env.chrdev_result],
                   log := s.log ++ [Event.register_chrdev 0] },
          { s with ads1115_client := some env.client, major_number := env.chrdev_result,
                   ads1115_class := KPtr.ok c,
                   chrdevs := [env.chrdev_result], classes := [c],
                   log := s.log ++ [Event.register_chrdev 0, Event.class_create] }],
        cur :=
          { ads1115_client := some env.client, major_number := env.chrdev_result,
            ads1115_class := KPtr.ok c, ads1115_device := KPtr.ok d,
            chrdevs := [env.chrdev_result], classes := [c],
            nodes := [(c, MKDEV env.chrdev_result 0)],
            log := s.log ++ [Event.register_chrdev 0, Event.class_create,
              Event.device_create (KPtr.ok c) (MKDEV env.chrdev_result 0)] } }) := by
  obtain ⟨h1, h2, h3⟩ := hU
  obtain ⟨client, cr, klass, dev⟩ := env
  simp only at hm hc hd
  subst hc hd
  have hneg : ¬ cr < 0 := by omega
  simp [ads1115_probe, Run.step, Run.start, register_chrdev, class_create, device_create,
    IS_ERR, hneg, h1, h2, h3]

/-- C7 (as stated, refuted): after an attach and a detach nothing is
registered, yet a second `ads1115_remove` issues all four release calls again,
on the class, device number and major number already released. -/
theorem remove_unbound_issues_releases :
    Unbound State.detached ∧
    (ads1115_remove (Run.start State.detached)).cur.log = State.detached.log ++
      [Event.device_destroy (KPtr.ok 1) (MKDEV 240 0), Event.class_unregister (KPtr.ok 1),
       Event.class_destroy (KPtr.ok 1), Event.unregister_chrdev 240] ∧
    (ads1115_remove (Run.start State.detached)).cur.log ≠ State.detached.log ∧
    (ads1115_remove (Run.start State.init)).cur.log =
      [Event.device_destroy KPtr.null 0, Event.class_unregister KPtr.null,
       Event.class_destroy KPtr.null, Event.unregister_chrdev 0] := by
  decide

/-- C7 (amended): `ads1115_remove` has no guard. Called in any Unbound state it
issues `device_destroy`, `class_unregister`, `class_destroy` and
`unregister_chrdev`, in this order, on the identifiers still stored in the
driver's variables; no registration appears, so the state stays Unbound. -/
theorem remove_unbound_unguarded (s : State) (hU : Unbound s) :
    (ads1115_remove (Run.start s)).cur.log = s.log ++
      [Event.device_destroy s.ads1115_class (MKDEV s.major_number 0),
       Event.class_unregister s.ads1115_class, Event.class_destroy s.ads1115_class,
       Event.unregister_chrdev s.major_number] ∧
    Unbound (ads1115_remove (Run.start s)).cur := by
  obtain ⟨h1, h2, h3⟩ := hU
  obtain ⟨cl, kls, dev, mj, chr, clss, nds, lg⟩ := s
  simp only at h1 h2 h3
  subst h1 h2 h3
  cases kls <;>
    simp [ads1115_remove, Run.step, Run.start, device_destroy, class_unregister,
      class_destroy, drop_class, unregister_chrdev, Unbound]

/-- Witness for C7 (amended): detach after an attach that failed at node
creation. -/
theorem remove_unbound_unguarded_witness :
    Unbound (attached ProbeEnv.nodeFails State.init) ∧
    (ads1115_remove (Run.start (attached ProbeEnv.nodeFails State.init))).cur.log =
      (attached ProbeEnv.nodeFails State.init).log ++
      [Event.device_destroy (attached ProbeEnv.nodeFails State.init).ads1115_class
         (MKDEV (attached ProbeEnv.nodeFails State.init).major_number 0),
       Event.class_unregister (attached ProbeEnv.nodeFails State.init).ads1115_class,
       Event.class_destroy (attached ProbeEnv.nodeFails State.init).ads1115_class,
       Event.unregister_chrdev (attached ProbeEnv.nodeFails State.init).major_number] ∧
    Unbound (ads1115_remove (Run.start (attached ProbeEnv.nodeFails State.init))).cur :=
  ⟨by decide, remove_unbound_unguarded (attached ProbeEnv.nodeFails State.init) (by decide)⟩

/-- C9 (as stated, refuted): after a detach from Bound the handle is still
stored in `ads1115_client`. -/
theorem remove_keeps_handle :
    State.bound.ads1115_client = some 7 ∧
    (ads1115_remove (Run.start State.bound)).cur.ads1115_client = some 7 ∧
    (ads1115_remove (Run.start State.bound)).cur.ads1115_client ≠ none := by
  decide

/-- C9 (amended): a detach from the state a successful attach leaves (node,
class and channel identity registered, handle stored) calls `device_destroy`,
`class_unregister`, `class_destroy`, `unregister_chrdev`, each once and in this
order; afterwards no node, no class and no channel identity is registered, and
`ads1115_client` still holds the handle. -/
theorem remove_from_bound (env : ProbeEnv) (s : State) (c d : Nat)
    (hU : Unbound s) (hm : 0 ≤ env.chrdev_result) (hc : env.class_result = Alloc.ok c)
    (hd : env.device_result = Alloc.ok d) :
    (ads1115_probe env (Run.start s)).1 = 0 ∧
    (attached env s).nodes = [(c, MKDEV env.chrdev_result 0)] ∧
    (attached env s).classes = [c] ∧
    (attached env s).chrdevs = [env.chrdev_result] ∧
    (attached env s).ads1115_client = some env.client ∧
    (ads1115_remove (Run.start (attached env s))).cur.log = (attached env s).log ++
      [Event.device_destroy (KPtr.ok c) (MKDEV env.chrdev_result 0),
       Event.class_unregister (KPtr.ok c), Event.class_destroy (KPtr.ok c),
       Event.unregister_chrdev env.chrdev_result] ∧
    Unbound (ads1115_remove (Run.start (attached env s))).cur ∧
    (ads1115_remove (Run.start (attached env s))).cur.ads1115_client = some env.client := by
  have hp := probe_success_bound env s c d hU hm hc hd
  simp only [attached, hp]
  simp [ads1115_remove, Run.step, Run.start, device_destroy, class_unregister,
    class_destroy, drop_class, unregister_chrdev, Unbound]

/-- Witness for C9 (amended): attach at module load with major 240, class 1,
device 2, then detach. -/
theorem remove_from_bound_witness :
    (Unbound State.init ∧ (0 : Int) ≤ ProbeEnv.allOk.chrdev_result) ∧
    (ads1115_remove (Run.start (attached ProbeEnv.allOk State.init))).cur.log =
      (attached ProbeEnv.allOk State.init).log ++
      [Event.device_destroy (KPtr.ok 1) (MKDEV 240 0),
       Event.class_unregister (KPtr.ok 1), Event.class_destroy (KPtr.ok 1),
       Event.unregister_chrdev 240] ∧
    Unbound (ads1115_remove (Run.start (attached ProbeEnv.allOk State.init))).cur ∧
    (ads1115_remove (Run.start (attached ProbeEnv.allOk State.init))).cur.ads1115_client
      = some 7 :=
  ⟨by decide, (remove_from_bound ProbeEnv.allOk State.init 1 2 (by decide) (by decide)
    rfl rfl).2.2.2.2.2⟩

/-- C10: resource nesting. In every state an attach from Unbound passes
through, whether it succeeds or fails at any step and rolls back, and in every
state a detach from the resulting Bound state passes through, a registered
node implies a registered class, a registered class implies a registered
channel identity, and a registered channel identity implies a stored
handle. -/
theorem nesting_invariant (env : ProbeEnv) (s : State) (hU : Unbound s) :
    (∀ t ∈ (ads1115_probe env (Run.start s)).2.states, Nested t) ∧
    (env.failure = none →
      ∀ t ∈ (ads1115_remove (Run.start (attached env s))).states, Nested t) := by
  obtain ⟨h1, h2, h3⟩ := hU
  obtain ⟨client, cr, klass, dev⟩ := env
  by_cases hneg : cr < 0
  · simp [ProbeEnv.failure, hneg, ads1115_probe, Run.step, Run.start, Run.states,
      register_chrdev, Nested, h1, h2, h3]
  · cases klass with
    | fail ec =>
      simp [ProbeEnv.failure, hneg, ads1115_probe, Run.step, Run.start, Run.states,
        register_chrdev, class_create, unregister_chrdev, IS_ERR, Nested, h1, h2, h3]
    | ok c =>
      cases dev with
      | fail ed =>
        simp [ProbeEnv.failure, hneg, ads1115_probe, Run.step, Run.start, Run.states,
          register_chrdev, class_create, device_create, class_destroy, drop_class,
          unregister_chrdev, IS_ERR, Nested, h1, h2, h3]
      | ok d =>
        have hp := probe_success_bound ⟨client, cr, Alloc.ok c, Alloc.ok d⟩ s c d
          ⟨h1, h2, h3⟩ (by simpa using hneg) rfl rfl
        simp only [attached, hp]
        simp [ProbeEnv.failure, hneg, ads1115_remove, Run.step, Run.start,
          Run.states, device_destroy, class_unregister, class_destroy, drop_class,
          unregister_chrdev, Nested, h1, h2, h3]

/-- Witness for C10: a successful attach at module load followed by detach. -/
theorem nesting_invariant_witness :
    Unbound State.init ∧
    (∀ t ∈ (ads1115_probe ProbeEnv.allOk (Run.start State.init)).2.states, Nested t) ∧
    (ProbeEnv.allOk.failure = none →
      ∀ t ∈ (ads1115_remove (Run.start (attached ProbeEnv.allOk State.init))).states,
        Nested t) :=
  ⟨by decide, nesting_invariant ProbeEnv.allOk State.init (by decide)⟩

end ADS1115
